import Mathlib

/-!
Verification of the block read-recovery engine of `dskread` (`src/sg_dd.c`).

The development shallowly embeds the three core functions of the engine:

* `sg_build_scsi_cdb` — the pure command-descriptor builder;
* `sg_read_low`       — the single-transfer executor and failure classifier
                        (global counters passed explicitly as `GState`);
* `sg_read`           — the multi-attempt recovery controller, modelled as a
                        loop over a script of device responses.

The device side (ioctl results, sense data, `sg_ll_read_long10` completions)
is an input to the model: each `sg_read_low` invocation consumes one
`LowResp` describing what the device reported, and each controller loop
iteration consumes one `StepResp`.
-/

namespace Dskread

/-- Big-endian byte encoding: `putBE n v` is the `n`-byte big-endian encoding
of `v % 2^(8*n)`, mirroring `sg_put_unaligned_be24/32/64` (which store the
least significant `8*n` bits of their argument, most significant byte first). -/
def putBE : Nat → Nat → List Nat
  | 0, _ => []
  | n + 1, v => (v / 2 ^ (8 * n)) % 256 :: putBE n v

/-- Big-endian byte decoding, mirroring `sg_get_unaligned_be*`. -/
def getBE (l : List Nat) : Nat := l.foldl (fun a b => 256 * a + b) 0

/-- Shallow embedding of `sg_build_scsi_cdb` (src/sg_dd.c:481-552).

Returns `none` where the C function returns 1 (failure; the partially
written descriptor bytes are discarded by the caller in that case) and
`some cdb` where it returns 0 with `cdb` the bytes written.

Bit-level notes, each exact for the C types involved:
* `0x1fffff & start_block` on an `int64_t` equals `start_block % 2^21`
  (mathematical `Int.emod`, which is non-negative);
* the 6-byte range test `(start_block + blocks - 1) & (~0x1fffff)` is
  nonzero for an `int64_t` exactly when the value is negative or has a bit
  at position ≥ 21, i.e. unless `0 ≤ x < 2^21`;
* the 10-byte count test `blocks & (~0xffff)` on an `unsigned int` is
  nonzero exactly when `2^16 ≤ blocks` (for values below `2^32`);
* `(unsigned char)blocks` is `blocks % 256`, and the casts feeding
  `sg_put_unaligned_be32/be64` reduce the value mod `2^32` / `2^64`. -/
def sg_build_scsi_cdb (cdb_sz : Nat) (blocks : Nat) (start_block : Int)
    (write_true : Bool) (fua : Bool) (dpo : Bool) : Option (List Nat) :=
  -- cdbp[1] |= 0x10 (dpo), cdbp[1] |= 0x8 (fua); for the 6-byte size this
  -- byte is then overwritten by the big-endian address store.
  let byte1 : Nat := (if dpo then 0x10 else 0) + (if fua then 0x8 else 0)
  match cdb_sz with
  | 6 =>
      let op : Nat := if write_true then 0xa else 0x8
      let cdb := op :: putBE 3 ((start_block % 2 ^ 21).toNat)
                 ++ [if blocks == 256 then 0 else blocks % 256, 0]
      if blocks > 256 then none
      else if start_block + blocks - 1 < 0 ∨ 2 ^ 21 ≤ start_block + blocks - 1 then none
      else if dpo || fua then none
      else some cdb
  | 10 =>
      let op : Nat := if write_true then 0x2a else 0x28
      let cdb := op :: byte1 :: putBE 4 ((start_block % 2 ^ 32).toNat)
                 ++ [0] ++ putBE 2 (blocks % 2 ^ 16) ++ [0]
      if 2 ^ 16 ≤ blocks then none else some cdb
  | 12 =>
      let op : Nat := if write_true then 0xaa else 0xa8
      some (op :: byte1 :: putBE 4 ((start_block % 2 ^ 32).toNat)
            ++ putBE 4 (blocks % 2 ^ 32) ++ [0, 0])
  | 16 =>
      let op : Nat := if write_true then 0x8a else 0x88
      some (op :: byte1 :: putBE 8 ((start_block % 2 ^ 64).toNat)
            ++ putBE 4 (blocks % 2 ^ 32) ++ [0, 0])
  | _ => none

/-- Decoder for a 6-byte descriptor, following the spec's field layout:
21-bit big-endian address in bytes 1..3, 8-bit count in byte 4 with the
value 0 denoting 256 blocks. (Spec-side definition for the round-trip
claim; not taken from the source.) -/
def decode_cdb6 (cdb : List Nat) : Nat × Nat :=
  (getBE ((cdb.drop 1).take 3) % 2 ^ 21,
   if (cdb.getD 4 0) == 0 then 256 else cdb.getD 4 0)

/-- Decoder for a 10-byte descriptor: 32-bit big-endian address in bytes
2..5, 16-bit count in bytes 7..8. (Spec-side definition.) -/
def decode_cdb10 (cdb : List Nat) : Nat × Nat :=
  (getBE ((cdb.drop 2).take 4), getBE ((cdb.drop 7).take 2))

/-- Decoder for a 12-byte descriptor: 32-bit big-endian address in bytes
2..5, 32-bit count in bytes 6..9. (Spec-side definition.) -/
def decode_cdb12 (cdb : List Nat) : Nat × Nat :=
  (getBE ((cdb.drop 2).take 4), getBE ((cdb.drop 6).take 4))

/-- Decoder for a 16-byte descriptor: 64-bit big-endian address in bytes
2..9, 32-bit count in bytes 10..13. (Spec-side definition.) -/
def decode_cdb16 (cdb : List Nat) : Nat × Nat :=
  (getBE ((cdb.drop 2).take 8), getBE ((cdb.drop 10).take 4))

/-- C7: building a descriptor of each size in {6,10,12,16} with in-range
parameters (option flags clear for the 6-byte size) succeeds, and decoding
the produced bytes recovers the start block and count. -/
theorem build_cdb_roundtrip :
    (∀ (start : Int) (count : Nat), 0 ≤ start → 1 ≤ count → count ≤ 256 →
      start + count ≤ 2 ^ 21 →
      ∃ cdb, sg_build_scsi_cdb 6 count start false false false = some cdb ∧
        ((decode_cdb6 cdb).1 : Int) = start ∧ (decode_cdb6 cdb).2 = count) ∧
    (∀ (start : Int) (count : Nat) (fua dpo : Bool), 0 ≤ start → start < 2 ^ 32 →
      count < 2 ^ 16 →
      ∃ cdb, sg_build_scsi_cdb 10 count start false fua dpo = some cdb ∧
        ((decode_cdb10 cdb).1 : Int) = start ∧ (decode_cdb10 cdb).2 = count) ∧
    (∀ (start : Int) (count : Nat) (fua dpo : Bool), 0 ≤ start → start < 2 ^ 32 →
      count < 2 ^ 32 →
      ∃ cdb, sg_build_scsi_cdb 12 count start false fua dpo = some cdb ∧
        ((decode_cdb12 cdb).1 : Int) = start ∧ (decode_cdb12 cdb).2 = count) ∧
    (∀ (start : Int) (count : Nat) (fua dpo : Bool), 0 ≤ start → start < 2 ^ 64 →
      count < 2 ^ 32 →
      ∃ cdb, sg_build_scsi_cdb 16 count start false fua dpo = some cdb ∧
        ((decode_cdb16 cdb).1 : Int) = start ∧ (decode_cdb16 cdb).2 = count) := by
  refine ⟨?_, ?_, ?_, ?_⟩
  · intro start count h0 h1 h256 hrange
    have hb : sg_build_scsi_cdb 6 count start false false false =
        some (0x8 :: putBE 3 ((start % 2 ^ 21).toNat)
              ++ [if count == 256 then 0 else count % 256, 0]) := by
      simp only [sg_build_scsi_cdb]
      rw [if_neg (by omega), if_neg (by push_cast; omega), if_neg (by simp)]
      rfl
    refine ⟨_, hb, ?_, ?_⟩
    · simp only [decode_cdb6, putBE, getBE, List.cons_append, List.drop, List.take,
        List.foldl]
      push_cast
      omega
    · have h4 : ((8 : Nat) :: putBE 3 ((start % 2 ^ 21).toNat)
          ++ [if count == 256 then 0 else count % 256, 0]).getD 4 0
          = if count == 256 then 0 else count % 256 := by
        simp [putBE]
      simp only [decode_cdb6, h4]
      rcases eq_or_ne count 256 with hc | hc
      · simp [hc]
      · have hm : count % 256 = count := by omega
        simp [hc, hm, show count ≠ 0 by omega]
  · intro start count fua dpo h0 h32 h16
    have hb : sg_build_scsi_cdb 10 count start false fua dpo =
        some (0x28 :: ((if dpo then 0x10 else 0) + (if fua then 0x8 else 0))
              :: putBE 4 ((start % 2 ^ 32).toNat)
              ++ [0] ++ putBE 2 (count % 2 ^ 16) ++ [0]) := by
      simp only [sg_build_scsi_cdb]
      rw [if_neg (by omega)]
      rfl
    refine ⟨_, hb, ?_, ?_⟩
    · simp only [decode_cdb10, putBE, getBE, List.cons_append, List.drop, List.take,
        List.foldl]
      push_cast
      omega
    · simp only [decode_cdb10, putBE, getBE, List.cons_append, List.append_nil,
        List.drop, List.take, List.foldl]
      omega
  · intro start count fua dpo h0 h32 hc
    refine ⟨_, rfl, ?_, ?_⟩
    · simp only [decode_cdb12, putBE, getBE, List.cons_append, List.drop, List.take,
        List.foldl]
      push_cast
      omega
    · simp only [decode_cdb12, putBE, getBE, List.cons_append, List.append_nil,
        List.drop, List.take, List.foldl]
      omega
  · intro start count fua dpo h0 h64 hc
    refine ⟨_, rfl, ?_, ?_⟩
    · simp only [decode_cdb16, putBE, getBE, List.cons_append, List.drop, List.take,
        List.foldl]
      push_cast
      omega
    · simp only [decode_cdb16, putBE, getBE, List.cons_append, List.append_nil,
        List.drop, List.take, List.foldl]
      omega

/-- Witness for `build_cdb_roundtrip` at concrete in-range inputs. -/
theorem build_cdb_roundtrip_witness :
    (∃ cdb, sg_build_scsi_cdb 6 256 100 false false false = some cdb ∧
      ((decode_cdb6 cdb).1 : Int) = 100 ∧ (decode_cdb6 cdb).2 = 256) ∧
    (∃ cdb, sg_build_scsi_cdb 10 5000 70000 false true false = some cdb ∧
      ((decode_cdb10 cdb).1 : Int) = 70000 ∧ (decode_cdb10 cdb).2 = 5000) ∧
    (∃ cdb, sg_build_scsi_cdb 12 70000 70000 false false true = some cdb ∧
      ((decode_cdb12 cdb).1 : Int) = 70000 ∧ (decode_cdb12 cdb).2 = 70000) ∧
    (∃ cdb, sg_build_scsi_cdb 16 70000 4294967296 false true true = some cdb ∧
      ((decode_cdb16 cdb).1 : Int) = 4294967296 ∧ (decode_cdb16 cdb).2 = 70000) :=
  ⟨build_cdb_roundtrip.1 100 256 (by decide) (by decide) (by decide) (by decide),
   build_cdb_roundtrip.2.1 70000 5000 true false (by decide) (by decide) (by decide),
   build_cdb_roundtrip.2.2.1 70000 70000 false true (by decide) (by decide) (by decide),
   build_cdb_roundtrip.2.2.2 4294967296 70000 true true (by decide) (by decide) (by decide)⟩

/-- C8: a 6-byte descriptor with block count 256 (address in range, option
flags clear) succeeds with count byte 0; block count 257 fails. -/
theorem build_cdb6_count256 (start : Int) (h0 : 0 ≤ start)
    (hr : start + 256 ≤ 2 ^ 21) :
    (∃ cdb, sg_build_scsi_cdb 6 256 start false false false = some cdb ∧
      cdb.getD 4 0 = 0) ∧
    sg_build_scsi_cdb 6 257 start false false false = none := by
  constructor
  · have hb : sg_build_scsi_cdb 6 256 start false false false =
        some (0x8 :: putBE 3 ((start % 2 ^ 21).toNat)
              ++ [if 256 == 256 then 0 else 256 % 256, 0]) := by
      simp only [sg_build_scsi_cdb]
      rw [if_neg (by omega), if_neg (by push_cast; omega), if_neg (by simp)]
      rfl
    refine ⟨_, hb, ?_⟩
    simp [putBE, List.getD]
  · simp only [sg_build_scsi_cdb]
    rw [if_pos (by omega)]

/-- Witness for `build_cdb6_count256` at a concrete address. -/
theorem build_cdb6_count256_witness :
    (∃ cdb, sg_build_scsi_cdb 6 256 100 false false false = some cdb ∧
      cdb.getD 4 0 = 0) ∧
    sg_build_scsi_cdb 6 257 100 false false false = none :=
  build_cdb6_count256 100 (by decide) (by decide)

/-! ## The transfer executor and failure classifier (`sg_read_low`) -/

/-- Outcome/category codes of the read path.  These stand for the
`SG_LIB_*` category codes returned by `sg_err_category3` and the return
codes of `sg_read_low`/`sg_read` (all pairwise distinct small integers in
the C source), plus the negative return codes:

* `clean` — 0 (`SG_LIB_CAT_CLEAN`, also the success return value);
* `syntaxError` — `SG_LIB_SYNTAX_ERROR`;
* `enomem` — the -2 return (ioctl failed with `ENOMEM`);
* `ioerr` — the -1 return (other ioctl failure / unexpected results);
* `other` — any sense category without its own `case` label
  (e.g. `SG_LIB_CAT_OTHER`), handled by `default:`;
* `noResp` — model-only marker produced when the response script runs out
  (the real loop would issue another ioctl there). -/
inductive SgCode
  | clean
  | syntaxError
  | notReady
  | mediumHard
  | illegalReq
  | unitAttention
  | mediumHardWithInfo
  | abortedCommand
  | enomem
  | ioerr
  | other
  | noResp
deriving DecidableEq, Repr

/-- Sense categories as classified by `sg_err_category3` on a successful
ioctl: the categories with their own `case` in `sg_read_low`'s switch, and
`other` for everything reaching `default:`.  `conditionMet` is
`SG_LIB_CAT_CONDITION_MET`, which shares the success `break` with clean. -/
inductive Cat
  | clean
  | conditionMet
  | recovered
  | abortedCommand
  | unitAttention
  | mediumHard
  | notReady
  | illegalReq
  | other
deriving DecidableEq, Repr

/-- The fields of `struct flags_t` consumed by the read path
(src/sg_dd.c:239-256): descriptor size, continue-on-error level,
peripheral device type, per-call retry count, and the two cdb option
flags.  `coe` is the field mutated by `sg_read` on some error paths. -/
structure Flags where
  cdbsz : Nat
  coe : Int
  pdt : Int
  retries : Int
  fua : Bool
  dpo : Bool
deriving DecidableEq, Repr

/-- The process-wide mutable counters and ceilings used by the read path
(src/sg_dd.c:139-150,174): all C `int`s, modelled as `Int`. -/
structure GState where
  recovered_errs : Int
  unrecovered_errs : Int
  read_longs : Int
  num_retries : Int
  max_uas : Int
  max_aborted : Int
  read_long_blk_inc : Int
deriving DecidableEq, Repr

/-- What the device/kernel reports for one `SG_IO` ioctl issued by
`sg_read_low`.  `EINTR`/`EAGAIN`/`EBUSY` results are invisible (retried in
a tight loop), so the modelled ioctl result is final:

* `ioctlEnomem` — the ioctl failed with `errno == ENOMEM`;
* `ioctlFail` — the ioctl failed with any other errno;
* `cat` — otherwise, the `sg_err_category3` classification of the result;
* `infoValid`/`infoFld` — return value and output of
  `sg_get_sense_info_fld` on the captured sense data (the info field value
  is written to the output even when the VALID bit is clear);
* `senseAsc64` — `sg_scsi_normalize_sense` succeeded with
  `asc == 0x64 && ascq == 0x0`;
* `ili` — `sg_get_sense_filemark_eom_ili` succeeded with the ILI bit set;
* `dioOk` — the kernel honored a requested direct-IO transfer
  (`io_hdr.info & SG_INFO_DIRECT_IO_MASK == SG_INFO_DIRECT_IO`). -/
structure LowResp where
  ioctlEnomem : Bool
  ioctlFail : Bool
  cat : Cat
  infoValid : Bool
  infoFld : Nat
  senseAsc64 : Bool
  ili : Bool
  dioOk : Bool
deriving DecidableEq, Repr

/-- Result of one modelled `sg_read_low` call: return code, updated
globals, updated direct-IO flag (`*diop`), and the value left in the
caller's `*io_addrp`. -/
structure LowResult where
  code : SgCode
  st : GState
  dio : Bool
  io_addr : Nat
deriving DecidableEq, Repr

/-- Shallow embedding of `sg_read_low` (src/sg_dd.c:561-707).

`io_addr` is the current value of the caller's `*io_addrp`; branches that
do not call `sg_get_sense_info_fld` leave it unchanged.  The buffer
contents are handled by the caller's model (`sg_step`). -/
def sg_read_low (st : GState) (ifp : Flags) (blocks : Nat) (from_block : Int)
    (dio : Bool) (io_addr : Nat) (r : LowResp) : LowResult :=
  match sg_build_scsi_cdb ifp.cdbsz blocks from_block false ifp.fua ifp.dpo with
  | none => ⟨.syntaxError, st, dio, io_addr⟩
  | some _ =>
    if r.ioctlEnomem then ⟨.enomem, st, dio, io_addr⟩
    else if r.ioctlFail then ⟨.ioerr, st, dio, io_addr⟩
    else
      match r.cat with
      | .clean => ⟨.clean, st, dio && r.dioOk, io_addr⟩
      | .conditionMet => ⟨.clean, st, dio && r.dioOk, io_addr⟩
      | .recovered =>
          ⟨.clean, { st with recovered_errs := st.recovered_errs + 1 },
           dio && r.dioOk, r.infoFld⟩
      | .abortedCommand => ⟨.abortedCommand, st, dio, io_addr⟩
      | .unitAttention => ⟨.unitAttention, st, dio, io_addr⟩
      | .mediumHard =>
          let st1 := { st with unrecovered_errs := st.unrecovered_errs + 1 }
          if r.infoValid || (ifp.pdt == 5 && decide (0 < r.infoFld)) then
            ⟨.mediumHardWithInfo, st1, dio, r.infoFld⟩
          else
            ⟨.mediumHard, st1, dio, r.infoFld⟩
      | .notReady =>
          ⟨.notReady, { st with unrecovered_errs := st.unrecovered_errs + 1 },
           dio, io_addr⟩
      | .illegalReq =>
          if ifp.pdt == 5 && r.senseAsc64 then
            if r.ili then
              if 0 < r.infoFld then
                ⟨.mediumHardWithInfo,
                 { st with unrecovered_errs := st.unrecovered_errs + 1 },
                 dio, r.infoFld⟩
              else
                ⟨.mediumHard,
                 { st with unrecovered_errs := st.unrecovered_errs + 1 },
                 dio, r.infoFld⟩
            else
              ⟨.mediumHard,
               { st with unrecovered_errs := st.unrecovered_errs + 1 },
               dio, io_addr⟩
          else
            ⟨.illegalReq,
             { st with unrecovered_errs := st.unrecovered_errs + 1 },
             dio, io_addr⟩
      | .other =>
          ⟨.other, { st with unrecovered_errs := st.unrecovered_errs + 1 },
           dio, io_addr⟩

/-- C6: every `sg_read_low` call that classifies the outcome as a medium
error — `MediumHard` with or without info, including the optical
illegal-request reclassification — increments the process-wide
unrecovered-error counter exactly once during that call. -/
theorem sg_read_low_medium_increments_unrecovered
    (st : GState) (ifp : Flags) (blocks : Nat) (from_block : Int)
    (dio : Bool) (io_addr : Nat) (r : LowResp)
    (h : (sg_read_low st ifp blocks from_block dio io_addr r).code = .mediumHard ∨
         (sg_read_low st ifp blocks from_block dio io_addr r).code = .mediumHardWithInfo) :
    (sg_read_low st ifp blocks from_block dio io_addr r).st.unrecovered_errs =
      st.unrecovered_errs + 1 := by
  revert h
  unfold sg_read_low
  rcases r with ⟨ioe, iof, cat, iv, ifl, asc, ili, dk⟩
  cases sg_build_scsi_cdb ifp.cdbsz blocks from_block false ifp.fua ifp.dpo <;>
    cases cat <;> simp <;> repeat' split <;> try (first | rfl | simp_all)

/-- Witness for `sg_read_low_medium_increments_unrecovered`: a plain
medium error without info on a disk-type device. -/
theorem sg_read_low_medium_increments_unrecovered_witness :
    (sg_read_low ⟨0, 0, 0, 0, 10, 256, 8⟩ ⟨10, 0, 0, 2, false, false⟩ 4 100 false 0
        ⟨false, false, .mediumHard, false, 0, false, false, true⟩).code = .mediumHard ∧
    (sg_read_low ⟨0, 0, 0, 0, 10, 256, 8⟩ ⟨10, 0, 0, 2, false, false⟩ 4 100 false 0
        ⟨false, false, .mediumHard, false, 0, false, false, true⟩).st.unrecovered_errs = 0 + 1 :=
  ⟨by decide,
   sg_read_low_medium_increments_unrecovered ⟨0, 0, 0, 0, 10, 256, 8⟩
     ⟨10, 0, 0, 2, false, false⟩ 4 100 false 0
     ⟨false, false, .mediumHard, false, 0, false, false, true⟩ (Or.inl (by decide))⟩

/-! ## The recovery controller (`sg_read`) -/

/-- Completion of one `sg_ll_read_long10` call: success, an
illegal-request-with-info result carrying a corrected offset, or any of
the remaining failure categories (which `sg_read` treats identically:
print a message and leave `ok` false). -/
inductive LongRes
  | ok
  | illegalReqWithInfo
  | otherFail
deriving DecidableEq, Repr

/-- Everything the environment supplies to one iteration of `sg_read`'s
loop: the completion of the initial transfer (`first`), of the optional
partial re-read covering the blocks before the error LBA (`pfx`), the
result of `sg_memalign` (`memOk`), and the completions of the up-to-two
`sg_ll_read_long10` calls. -/
structure StepResp where
  first : LowResp
  pfx : LowResp
  memOk : Bool
  long1res : LongRes
  long1offset : Int
  long2ok : Bool
deriving DecidableEq, Repr

/-- Provenance of a block of the destination buffer after the call:
untouched, filled by a successful device transfer, zero-filled by the
controller, or filled from a successful `read_long` recovery. -/
inductive Cell
  | untouched
  | data
  | zero
  | longData
deriving DecidableEq, Repr

/-- Overwrite blocks `[pos, pos+len)` of the buffer with `c`. -/
def writeRange (buf : List Cell) (pos len : Nat) (c : Cell) : List Cell :=
  buf.mapIdx fun i x => if pos ≤ i ∧ i < pos + len then c else x

/-- Observable outcome of one `sg_read` call: return code, the value
written through `blks_readp` (`none` when the call returns without writing
it), final globals, the (possibly cleared) `coe` field of the caller's
flags struct, final `*diop`, buffer provenance, and the number of
`sg_read_low` invocations made. -/
structure ReadResult where
  code : SgCode
  blksRead : Option Nat
  st : GState
  coe : Int
  dio : Bool
  buf : List Cell
  lowCalls : Nat
deriving DecidableEq, Repr

/-- The loop-carried state of `sg_read`: globals, `*diop`, buffer,
`xferred`, `retries_tmp`, and the count of `sg_read_low` calls so far. -/
structure LoopSt where
  st : GState
  dio : Bool
  buf : List Cell
  xferred : Nat
  retries_tmp : Int
  lowCalls : Nat
deriving DecidableEq, Repr

/-- The `err_out` label at the bottom of `sg_read` (src/sg_dd.c:976-992):
with `coe` enabled it zero-fills the current sub-range, reports
`xferred + blks` through `blks_readp`, and "fudges success" exactly when
`may_coe`; with `coe` disabled it returns `ret` without touching
`blks_readp`. -/
def err_out (ret : SgCode) (may_coe : Bool) (ifp : Flags) (st : GState)
    (dio : Bool) (buf : List Cell) (xferred blks lowCalls : Nat) : ReadResult :=
  if ifp.coe ≠ 0 then
    { code := if may_coe then SgCode.clean else ret,
      blksRead := some (xferred + blks),
      st := st, coe := ifp.coe, dio := dio,
      buf := writeRange buf xferred blks Cell.zero,
      lowCalls := lowCalls }
  else
    { code := ret, blksRead := none, st := st, coe := ifp.coe, dio := dio,
      buf := buf, lowCalls := lowCalls }

/-- The bookkeeping shared by the two retry branches of `sg_read`'s switch
(src/sg_dd.c:772-780 and 800-808): `++num_retries` and, when positive,
`--unrecovered_errs` (undoing the increment the failed `sg_read_low` just
made).   `--retries_tmp` is handled at the call sites. -/
def retry_bookkeeping (st : GState) : GState :=
  { st with
    num_retries := st.num_retries + 1
    unrecovered_errs :=
      if 0 < st.unrecovered_errs then st.unrecovered_errs - 1
      else st.unrecovered_errs }

/-- The per-block continue-on-error recovery tail of a loop iteration
(src/sg_dd.c:865-971): runs after the partial re-read, with `nblks` the
number of blocks read before the error LBA and `ioaddr` the final value of
`io_addr`.  Either returns out of `sg_read` (`.inl`) or advances past the
bad block and continues the loop (`.inr`). -/
def recovery (bs : Nat) (ifp : Flags) (r : StepResp) (a : LoopSt)
    (nblks : Nat) (ioaddr : Nat) : ReadResult ⊕ LoopSt :=
  -- xferred += blks
  let xf1 := a.xferred + nblks
  if ifp.coe = 0 then
    -- give up at block before problem unless 'coe'
    .inl { code := .mediumHard, blksRead := some xf1, st := a.st,
           coe := ifp.coe, dio := a.dio, buf := a.buf, lowCalls := a.lowCalls }
  else if bs < 32 then
    .inl { code := .ioerr, blksRead := none, st := a.st, coe := ifp.coe,
           dio := a.dio, buf := a.buf, lowCalls := a.lowCalls }
  else if ifp.pdt ≠ 0 ∨ ifp.coe < 2 then
    -- unrecovered read error at blk, use zeros
    .inr { a with xferred := xf1 + 1, buf := writeRange a.buf xf1 1 .zero }
  else if ioaddr < 2 ^ 32 - 1 then
    -- io_addr < UINT_MAX: try read_long(10)
    if r.memOk then
      match r.long1res with
      | .ok =>
          .inr { a with
                 xferred := xf1 + 1
                 st := { a.st with read_longs := a.st.read_longs + 1 }
                 buf := writeRange a.buf xf1 1 .longData }
      | .illegalReqWithInfo =>
          let nl : Int := bs + a.st.read_long_blk_inc - r.long1offset
          if nl < 32 ∨ 2 * bs < nl then
            .inr { a with
                   xferred := xf1 + 1
                   buf := writeRange a.buf xf1 1 .zero }
          else
            -- remember for next read_long attempt, if required
            let st3 := { a.st with read_long_blk_inc := nl - bs }
            if r.long2ok then
              .inr { a with
                     xferred := xf1 + 1
                     st := { st3 with read_longs := st3.read_longs + 1 }
                     buf := writeRange a.buf xf1 1 .longData }
            else
              .inr { a with
                     xferred := xf1 + 1
                     st := st3
                     buf := writeRange a.buf xf1 1 .zero }
      | .otherFail =>
          .inr { a with
                 xferred := xf1 + 1
                 buf := writeRange a.buf xf1 1 .zero }
    else
      -- heap problems
      .inl { code := .ioerr, blksRead := none, st := a.st, coe := ifp.coe,
             dio := a.dio, buf := a.buf, lowCalls := a.lowCalls }
  else
    -- read_long(10) cannot handle blk, use zeros
    .inr { a with xferred := xf1 + 1, buf := writeRange a.buf xf1 1 .zero }

/-- One iteration of `sg_read`'s loop body (src/sg_dd.c:727-971), entered
with `blocks - a.xferred > 0` remaining blocks.  `.inl` is a return out of
`sg_read`; `.inr` continues the loop with updated state. -/
def sg_step (blocks : Nat) (from_block : Int) (bs : Nat) (ifp : Flags)
    (r : StepResp) (a : LoopSt) : ReadResult ⊕ LoopSt :=
  let blks := blocks - a.xferred
  let lba : Int := from_block + a.xferred
  let low := sg_read_low a.st ifp blks lba a.dio 0 r.first
  let lc1 := a.lowCalls + 1
  match low.code with
  | .clean =>
      .inl { code := .clean, blksRead := some (a.xferred + blks), st := low.st,
             coe := ifp.coe, dio := low.dio,
             buf := writeRange a.buf a.xferred blks .data, lowCalls := lc1 }
  | .enomem =>
      .inl { code := .enomem, blksRead := none, st := low.st, coe := ifp.coe,
             dio := low.dio, buf := a.buf, lowCalls := lc1 }
  | .notReady =>
      .inl { code := .notReady, blksRead := none, st := low.st, coe := ifp.coe,
             dio := low.dio, buf := a.buf, lowCalls := lc1 }
  | .abortedCommand =>
      -- if (--max_aborted > 0) continue, else return
      if 0 < low.st.max_aborted - 1 then
        .inr { a with
               st := { low.st with max_aborted := low.st.max_aborted - 1 }
               dio := low.dio
               lowCalls := lc1 }
      else
        .inl { code := .abortedCommand, blksRead := none,
               st := { low.st with max_aborted := low.st.max_aborted - 1 },
               coe := ifp.coe, dio := low.dio, buf := a.buf, lowCalls := lc1 }
  | .unitAttention =>
      -- if (--max_uas > 0) continue, else return
      if 0 < low.st.max_uas - 1 then
        .inr { a with
               st := { low.st with max_uas := low.st.max_uas - 1 }
               dio := low.dio
               lowCalls := lc1 }
      else
        .inl { code := .unitAttention, blksRead := none,
               st := { low.st with max_uas := low.st.max_uas - 1 },
               coe := ifp.coe, dio := low.dio, buf := a.buf, lowCalls := lc1 }
  | .syntaxError =>
      -- ifp->coe = 0; ret = res; goto err_out
      .inl (err_out .syntaxError false { ifp with coe := 0 } low.st low.dio
              a.buf a.xferred blks lc1)
  | .ioerr =>
      .inl (err_out .ioerr false ifp low.st low.dio a.buf a.xferred blks lc1)
  | .mediumHard =>
      -- may_coe = true, then FALL THROUGH into default
      if 0 < a.retries_tmp then
        .inr { a with
               st := retry_bookkeeping low.st
               dio := low.dio
               retries_tmp := a.retries_tmp - 1
               lowCalls := lc1 }
      else
        .inl (err_out .mediumHard true ifp low.st low.dio a.buf a.xferred blks lc1)
  | .illegalReq =>
      if 0 < a.retries_tmp then
        .inr { a with
               st := retry_bookkeeping low.st
               dio := low.dio
               retries_tmp := a.retries_tmp - 1
               lowCalls := lc1 }
      else
        .inl (err_out .illegalReq false ifp low.st low.dio a.buf a.xferred blks lc1)
  | .other =>
      if 0 < a.retries_tmp then
        .inr { a with
               st := retry_bookkeeping low.st
               dio := low.dio
               retries_tmp := a.retries_tmp - 1
               lowCalls := lc1 }
      else
        .inl (err_out .other false ifp low.st low.dio a.buf a.xferred blks lc1)
  | .noResp =>
      -- unreachable: sg_read_low never produces the model marker; shaped
      -- like the default branch
      if 0 < a.retries_tmp then
        .inr { a with
               st := retry_bookkeeping low.st
               dio := low.dio
               retries_tmp := a.retries_tmp - 1
               lowCalls := lc1 }
      else
        .inl (err_out .noResp false ifp low.st low.dio a.buf a.xferred blks lc1)
  | .mediumHardWithInfo =>
      if 0 < a.retries_tmp then
        .inr { a with
               st := retry_bookkeeping low.st
               dio := low.dio
               retries_tmp := a.retries_tmp - 1
               lowCalls := lc1 }
      else
        -- ret = SG_LIB_CAT_MEDIUM_HARD; range-check io_addr
        let ioaddr := low.io_addr
        let lbaU : Nat := (lba % 2 ^ 64).toNat
        let ubU : Nat := ((lba + blks) % 2 ^ 64).toNat
        if ioaddr < lbaU ∨ ubU ≤ ioaddr then
          -- unrecovered error lba not in correct range: may_coe = true
          .inl (err_out .mediumHard true ifp low.st low.dio a.buf a.xferred blks lc1)
        else
          let nblks := ioaddr - lbaU
          if 0 < nblks then
            -- partial read of nblks blocks prior to medium error
            let pfx := sg_read_low low.st ifp nblks lba low.dio ioaddr r.pfx
            let lc2 := lc1 + 1
            match pfx.code with
            | .clean =>
                recovery bs ifp r
                  { a with
                    st := pfx.st
                    dio := pfx.dio
                    buf := writeRange a.buf a.xferred nblks .data
                    lowCalls := lc2 } nblks pfx.io_addr
            | .ioerr =>
                -- ifp->coe = 0; ret = res; goto err_out
                .inl (err_out .ioerr false { ifp with coe := 0 } pfx.st pfx.dio
                        a.buf a.xferred nblks lc2)
            | .enomem =>
                -- "ENOMEM again, unexpected": return -1
                .inl { code := .ioerr, blksRead := none, st := pfx.st,
                       coe := ifp.coe, dio := pfx.dio, buf := a.buf, lowCalls := lc2 }
            | .notReady =>
                .inl { code := .notReady, blksRead := none, st := pfx.st,
                       coe := ifp.coe, dio := pfx.dio, buf := a.buf, lowCalls := lc2 }
            | .unitAttention =>
                .inl { code := .unitAttention, blksRead := none, st := pfx.st,
                       coe := ifp.coe, dio := pfx.dio, buf := a.buf, lowCalls := lc2 }
            | .abortedCommand =>
                .inl { code := .abortedCommand, blksRead := none, st := pfx.st,
                       coe := ifp.coe, dio := pfx.dio, buf := a.buf, lowCalls := lc2 }
            | .mediumHardWithInfo =>
                .inl (err_out .mediumHard false ifp pfx.st pfx.dio a.buf
                        a.xferred nblks lc2)
            | .mediumHard =>
                .inl (err_out .mediumHard false ifp pfx.st pfx.dio a.buf
                        a.xferred nblks lc2)
            | c =>
                -- SYNTAX_ERROR and default: ret = res; goto err_out
                .inl (err_out c false ifp pfx.st pfx.dio a.buf a.xferred nblks lc2)
          else
            recovery bs ifp r
              { a with
                st := low.st
                dio := low.dio
                lowCalls := lc1 } 0 ioaddr

/-- The loop of `sg_read` (src/sg_dd.c:727-974): while blocks remain,
consume one scripted iteration; falling out of the loop reports `xferred`
and returns 0. -/
def sg_read_loop (blocks : Nat) (from_block : Int) (bs : Nat) (ifp : Flags) :
    List StepResp → LoopSt → ReadResult
  | [], a =>
      if blocks - a.xferred = 0 then
        { code := .clean, blksRead := some a.xferred, st := a.st,
          coe := ifp.coe, dio := a.dio, buf := a.buf, lowCalls := a.lowCalls }
      else
        { code := .noResp, blksRead := none, st := a.st, coe := ifp.coe,
          dio := a.dio, buf := a.buf, lowCalls := a.lowCalls }
  | r :: rest, a =>
      if blocks - a.xferred = 0 then
        { code := .clean, blksRead := some a.xferred, st := a.st,
          coe := ifp.coe, dio := a.dio, buf := a.buf, lowCalls := a.lowCalls }
      else
        match sg_step blocks from_block bs ifp r a with
        | .inl res => res
        | .inr a' => sg_read_loop blocks from_block bs ifp rest a'

/-- Shallow embedding of `sg_read` (src/sg_dd.c:713-993): run the loop
from a fresh per-call state (`retries_tmp = ifp->retries`, `xferred = 0`,
destination buffer untouched). -/
def sg_read (script : List StepResp) (st : GState) (ifp : Flags) (dio : Bool)
    (blocks : Nat) (from_block : Int) (bs : Nat) : ReadResult :=
  sg_read_loop blocks from_block bs ifp script
    ⟨st, dio, List.replicate blocks .untouched, 0, ifp.retries, 0⟩

/-! ## C1: `blks_readp` never exceeds the requested count -/

theorem err_out_blksRead (ret : SgCode) (may_coe : Bool) (ifp : Flags)
    (st : GState) (dio : Bool) (buf : List Cell) (xferred blks lowCalls : Nat)
    (v : Nat)
    (h : (err_out ret may_coe ifp st dio buf xferred blks lowCalls).blksRead = some v) :
    v = xferred + blks := by
  simp only [err_out] at h
  split at h <;> simp_all

theorem recovery_inl_blksRead (bs : Nat) (ifp : Flags) (r : StepResp)
    (a : LoopSt) (nblks ioaddr : Nat) (res : ReadResult)
    (h : recovery bs ifp r a nblks ioaddr = .inl res) :
    res.blksRead = some (a.xferred + nblks) ∨ res.blksRead = none := by
  simp only [recovery] at h
  repeat' split at h
  all_goals (try (injection h with h2; subst h2))
  all_goals (try (simp at h))
  all_goals simp

theorem recovery_inr_xferred (bs : Nat) (ifp : Flags) (r : StepResp)
    (a : LoopSt) (nblks ioaddr : Nat) (a' : LoopSt)
    (h : recovery bs ifp r a nblks ioaddr = .inr a') :
    a'.xferred = a.xferred + nblks + 1 := by
  simp only [recovery] at h
  repeat' split at h
  all_goals (try (injection h with h2; subst h2))
  all_goals (try (simp at h))
  all_goals simp

theorem sg_step_inl_bound (blocks : Nat) (from_block : Int) (bs : Nat)
    (ifp : Flags) (r : StepResp) (a : LoopSt) (res : ReadResult) (v : Nat)
    (ha : a.xferred < blocks)
    (h : sg_step blocks from_block bs ifp r a = .inl res)
    (hv : res.blksRead = some v) : v ≤ blocks := by
  simp only [sg_step] at h
  repeat' split at h
  all_goals (try (injection h with h2; subst h2))
  all_goals (try (simp at h))
  all_goals first
    | (simp only [Option.some.injEq] at hv; omega)
    | (cases hv)
    | (have h3 := err_out_blksRead _ _ _ _ _ _ _ _ _ _ hv; omega)
    | (rcases recovery_inl_blksRead _ _ _ _ _ _ _ h with hr | hr <;>
        rw [hr] at hv <;> simp at hv <;> omega)

theorem sg_step_inr_bound (blocks : Nat) (from_block : Int) (bs : Nat)
    (ifp : Flags) (r : StepResp) (a : LoopSt) (a' : LoopSt)
    (ha : a.xferred < blocks)
    (h : sg_step blocks from_block bs ifp r a = .inr a') :
    a'.xferred ≤ blocks := by
  simp only [sg_step] at h
  repeat' split at h
  all_goals (try (injection h with h2; subst h2))
  all_goals (try (simp at h))
  all_goals first
    | (simp only []; omega)
    | (simp; omega)
    | (have h3 := recovery_inr_xferred _ _ _ _ _ _ _ h; simp at h3; omega)

theorem sg_read_loop_blksRead_le (blocks : Nat) (from_block : Int) (bs : Nat)
    (ifp : Flags) :
    ∀ (script : List StepResp) (a : LoopSt), a.xferred ≤ blocks →
      ∀ v, (sg_read_loop blocks from_block bs ifp script a).blksRead = some v →
        v ≤ blocks := by
  intro script
  induction script with
  | nil =>
      intro a ha v hv
      simp only [sg_read_loop] at hv
      split at hv
      · simp only [Option.some.injEq] at hv; omega
      · cases hv
  | cons r rest ih =>
      intro a ha v hv
      simp only [sg_read_loop] at hv
      split at hv
      · simp only [Option.some.injEq] at hv; omega
      · rename_i hne
        rcases hs : sg_step blocks from_block bs ifp r a with res | a' <;>
          rw [hs] at hv
        · exact sg_step_inl_bound blocks from_block bs ifp r a res v
            (by omega) hs hv
        · exact ih a' (sg_step_inr_bound blocks from_block bs ifp r a a'
            (by omega) hs) v hv

/-- C1: on every return path of `sg_read` — success, error, and the
continue-on-error fudge path — the value reported through `blks_readp`
never exceeds the requested block count. -/
theorem sg_read_blksRead_le_blocks (script : List StepResp) (st : GState)
    (ifp : Flags) (dio : Bool) (blocks : Nat) (from_block : Int) (bs : Nat)
    (v : Nat)
    (h : (sg_read script st ifp dio blocks from_block bs).blksRead = some v) :
    v ≤ blocks :=
  sg_read_loop_blksRead_le blocks from_block bs ifp script
    ⟨st, dio, List.replicate blocks .untouched, 0, ifp.retries, 0⟩
    (Nat.zero_le blocks) v h

/-! ## Concrete scenario ingredients -/

/-- The program-start global state: all counters zero,
`max_uas = MAX_UNIT_ATTENTIONS = 10`, `max_aborted = MAX_ABORTED_CMDS = 256`,
`read_long_blk_inc = READ_LONG_DEF_BLK_INC = 8`. -/
def st0 : GState := ⟨0, 0, 0, 0, 10, 256, 8⟩

/-- A clean transfer completion. -/
def cleanResp : LowResp := ⟨false, false, .clean, false, 0, false, false, true⟩

/-- A medium error whose sense data carries a valid error LBA. -/
def mediumInfoResp (lba : Nat) : LowResp :=
  ⟨false, false, .mediumHard, true, lba, false, false, true⟩

/-- A unit-attention completion. -/
def uaResp : LowResp := ⟨false, false, .unitAttention, false, 0, false, false, true⟩

/-- A NOT READY completion. -/
def notReadyResp : LowResp := ⟨false, false, .notReady, false, 0, false, false, true⟩

/-- An `SG_IO` ioctl failing with `ENOMEM`. -/
def enomemResp : LowResp := ⟨true, false, .clean, false, 0, false, false, true⟩

/-- A loop iteration whose initial transfer completes as `f` (prefix
re-read clean, allocation succeeding, read_long succeeding — unused unless
the corresponding path is taken). -/
def stepOf (f : LowResp) : StepResp := ⟨f, cleanResp, true, .ok, 0, true⟩

/-- Witness for `sg_read_blksRead_le_blocks`: a clean 4-block read reports
exactly 4 blocks. -/
theorem sg_read_blksRead_le_blocks_witness :
    (sg_read [stepOf cleanResp] st0 ⟨10, 0, 0, 0, false, false⟩ false
        4 100 512).blksRead = some 4 ∧ 4 ≤ 4 :=
  ⟨by decide,
   sg_read_blksRead_le_blocks [stepOf cleanResp] st0 ⟨10, 0, 0, 0, false, false⟩
     false 4 100 512 4 (by decide)⟩

/-! ## C3: Scenario B (medium error at 102, coe disabled) -/

/-- C3: a read of count 4 at block 100 with `coe = 0` and retry budget 0,
where the device reports a medium error with error LBA 102: the two blocks
before the error LBA are re-read (a second `sg_read_low` call, blocks 0-1
holding device data), `blks_readp` is set to 2, the call returns
`MEDIUM_HARD`, and the unrecovered-error counter goes up by exactly one —
for every initial global state. -/
theorem sg_read_scenarioB (st : GState) :
    (sg_read [⟨mediumInfoResp 102, cleanResp, true, .ok, 0, true⟩] st
        ⟨10, 0, 0, 0, false, false⟩ false 4 100 512).code = .mediumHard ∧
    (sg_read [⟨mediumInfoResp 102, cleanResp, true, .ok, 0, true⟩] st
        ⟨10, 0, 0, 0, false, false⟩ false 4 100 512).blksRead = some 2 ∧
    (sg_read [⟨mediumInfoResp 102, cleanResp, true, .ok, 0, true⟩] st
        ⟨10, 0, 0, 0, false, false⟩ false 4 100 512).st =
      { st with unrecovered_errs := st.unrecovered_errs + 1 } ∧
    (sg_read [⟨mediumInfoResp 102, cleanResp, true, .ok, 0, true⟩] st
        ⟨10, 0, 0, 0, false, false⟩ false 4 100 512).lowCalls = 2 ∧
    (sg_read [⟨mediumInfoResp 102, cleanResp, true, .ok, 0, true⟩] st
        ⟨10, 0, 0, 0, false, false⟩ false 4 100 512).buf =
      [Cell.data, Cell.data, Cell.untouched, Cell.untouched] :=
  ⟨rfl, rfl, rfl, rfl, rfl⟩

/-! ## C2: the continue-on-error fudge path -/

/-- C2 counterexample: with continue-on-error enabled (`coe = 1`), a
NOT READY terminal failure — which is neither `ResourceExhausted` nor
`SyntaxError` — is NOT converted to fudged success: `sg_read` returns
`NOT_READY`, leaves `blks_readp` unwritten, and zero-fills nothing,
contradicting the claim that every terminal failure under `coe` reports
the whole range as read and returns success. -/
theorem sg_read_coe_notReady_counterexample :
    (sg_read [stepOf notReadyResp] st0 ⟨10, 1, 0, 0, false, false⟩ false
        4 100 512).code = .notReady ∧
    (sg_read [stepOf notReadyResp] st0 ⟨10, 1, 0, 0, false, false⟩ false
        4 100 512).blksRead = none ∧
    (sg_read [stepOf notReadyResp] st0 ⟨10, 1, 0, 0, false, false⟩ false
        4 100 512).buf = List.replicate 4 Cell.untouched := by
  decide

/-! ## C4: unit-attention exhaustion -/

/-- C4 counterexample: starting from the default ceiling
`max_uas = 10` with the device reporting unit attention on every attempt
(11 scripted responses), `sg_read` gives up after 10 attempts — i.e. 9
retries, not the claimed 10 — having consumed only 10 of the 11 responses,
and `num_retries` is NOT incremented at all (the claim says it increases
by the ceiling).  The ceiling does reach 0. -/
theorem sg_read_ua_counterexample :
    (sg_read (List.replicate 11 (stepOf uaResp)) st0
        ⟨10, 0, 0, 0, false, false⟩ false 1 0 512).code = .unitAttention ∧
    (sg_read (List.replicate 11 (stepOf uaResp)) st0
        ⟨10, 0, 0, 0, false, false⟩ false 1 0 512).lowCalls = 10 ∧
    (sg_read (List.replicate 11 (stepOf uaResp)) st0
        ⟨10, 0, 0, 0, false, false⟩ false 1 0 512).st.num_retries = 0 ∧
    (sg_read (List.replicate 11 (stepOf uaResp)) st0
        ⟨10, 0, 0, 0, false, false⟩ false 1 0 512).st.max_uas = 0 := by
  decide

/-! ## Characterizations of single transfers and loop steps -/

theorem sg_read_low_enomem (st : GState) (ifp : Flags) (blocks : Nat)
    (fb : Int) (dio : Bool) (io : Nat) (r : LowResp)
    (hB : (sg_build_scsi_cdb ifp.cdbsz blocks fb false ifp.fua ifp.dpo).isSome)
    (hE : r.ioctlEnomem = true) :
    sg_read_low st ifp blocks fb dio io r = ⟨.enomem, st, dio, io⟩ := by
  rcases Option.isSome_iff_exists.mp hB with ⟨c, hc⟩
  simp [sg_read_low, hc, hE]

theorem sg_read_low_ioctlFail (st : GState) (ifp : Flags) (blocks : Nat)
    (fb : Int) (dio : Bool) (io : Nat) (r : LowResp)
    (hB : (sg_build_scsi_cdb ifp.cdbsz blocks fb false ifp.fua ifp.dpo).isSome)
    (hE : r.ioctlEnomem = false) (hF : r.ioctlFail = true) :
    sg_read_low st ifp blocks fb dio io r = ⟨.ioerr, st, dio, io⟩ := by
  rcases Option.isSome_iff_exists.mp hB with ⟨c, hc⟩
  simp [sg_read_low, hc, hE, hF]

theorem sg_read_low_of_cat_ua (st : GState) (ifp : Flags) (blocks : Nat)
    (fb : Int) (dio : Bool) (io : Nat) (r : LowResp)
    (hB : (sg_build_scsi_cdb ifp.cdbsz blocks fb false ifp.fua ifp.dpo).isSome)
    (hE : r.ioctlEnomem = false) (hF : r.ioctlFail = false)
    (hC : r.cat = .unitAttention) :
    sg_read_low st ifp blocks fb dio io r = ⟨.unitAttention, st, dio, io⟩ := by
  rcases Option.isSome_iff_exists.mp hB with ⟨c, hc⟩
  simp [sg_read_low, hc, hE, hF, hC]

theorem sg_read_low_of_cat_notReady (st : GState) (ifp : Flags) (blocks : Nat)
    (fb : Int) (dio : Bool) (io : Nat) (r : LowResp)
    (hB : (sg_build_scsi_cdb ifp.cdbsz blocks fb false ifp.fua ifp.dpo).isSome)
    (hE : r.ioctlEnomem = false) (hF : r.ioctlFail = false)
    (hC : r.cat = .notReady) :
    sg_read_low st ifp blocks fb dio io r =
      ⟨.notReady, { st with unrecovered_errs := st.unrecovered_errs + 1 },
       dio, io⟩ := by
  rcases Option.isSome_iff_exists.mp hB with ⟨c, hc⟩
  simp [sg_read_low, hc, hE, hF, hC]

theorem sg_read_low_medium_noinfo (st : GState) (ifp : Flags) (blocks : Nat)
    (fb : Int) (dio : Bool) (io : Nat) (r : LowResp)
    (hB : (sg_build_scsi_cdb ifp.cdbsz blocks fb false ifp.fua ifp.dpo).isSome)
    (hE : r.ioctlEnomem = false) (hF : r.ioctlFail = false)
    (hC : r.cat = .mediumHard) (hIV : r.infoValid = false)
    (hI0 : r.infoFld = 0) :
    sg_read_low st ifp blocks fb dio io r =
      ⟨.mediumHard, { st with unrecovered_errs := st.unrecovered_errs + 1 },
       dio, 0⟩ := by
  rcases Option.isSome_iff_exists.mp hB with ⟨c, hc⟩
  simp [sg_read_low, hc, hE, hF, hC, hIV, hI0]

theorem sg_read_low_syntax (st : GState) (ifp : Flags) (blocks : Nat)
    (fb : Int) (dio : Bool) (io : Nat) (r : LowResp)
    (hB : sg_build_scsi_cdb ifp.cdbsz blocks fb false ifp.fua ifp.dpo = none) :
    sg_read_low st ifp blocks fb dio io r = ⟨.syntaxError, st, dio, io⟩ := by
  simp [sg_read_low, hB]

/-- Entering `sg_read` with a nonempty script and remaining blocks runs
one loop iteration; a `.inl` step result is the call's result. -/
theorem sg_read_cons_inl (st : GState) (ifp : Flags) (dio : Bool)
    (blocks : Nat) (fb : Int) (bs : Nat) (r : StepResp) (rest : List StepResp)
    (res : ReadResult) (hblocks : blocks ≠ 0)
    (h : sg_step blocks fb bs ifp r
        ⟨st, dio, List.replicate blocks .untouched, 0, ifp.retries, 0⟩ = .inl res) :
    sg_read (r :: rest) st ifp dio blocks fb bs = res := by
  simp only [sg_read, sg_read_loop]
  rw [if_neg (by simpa using hblocks), h]

/-! ## Buffer lemmas -/

theorem mapIdx_const {α β : Type} :
    ∀ (l : List α) (f : Nat → α → β) (b : β),
      (∀ i, i < l.length → ∀ a, f i a = b) →
      l.mapIdx f = List.replicate l.length b := by
  intro l
  induction l with
  | nil => intro f b h; simp
  | cons a t ih =>
      intro f b h
      rw [List.mapIdx_cons, h 0 (by simp) a, List.length_cons,
        List.replicate_succ]
      exact congrArg _ (ih (fun i a => f (i + 1) a) b
        (fun i hi a => h (i + 1) (by simpa using hi) a))

/-- Zero-filling (or data-filling) the whole of a fresh buffer. -/
theorem writeRange_replicate (n : Nat) (c c' : Cell) :
    writeRange (List.replicate n c) 0 n c' = List.replicate n c' := by
  unfold writeRange
  rw [show List.replicate n c' = List.replicate (List.replicate n c).length c' by
    rw [List.length_replicate]]
  exact mapIdx_const _ _ _ (fun i hi a => by
    rw [if_pos ⟨Nat.zero_le i, by simpa using hi⟩])

/-! ## C4 (amended): unit-attention exhaustion, general ceiling -/

theorem sg_step_ua (blocks : Nat) (fb : Int) (bs : Nat) (ifp : Flags)
    (u : StepResp) (a : LoopSt)
    (hB : (sg_build_scsi_cdb ifp.cdbsz (blocks - a.xferred)
      (fb + a.xferred) false ifp.fua ifp.dpo).isSome)
    (hE : u.first.ioctlEnomem = false) (hF : u.first.ioctlFail = false)
    (hC : u.first.cat = .unitAttention) :
    sg_step blocks fb bs ifp u a =
      if 0 < a.st.max_uas - 1 then
        .inr { a with
               st := { a.st with max_uas := a.st.max_uas - 1 }
               dio := a.dio
               lowCalls := a.lowCalls + 1 }
      else
        .inl { code := .unitAttention, blksRead := none,
               st := { a.st with max_uas := a.st.max_uas - 1 },
               coe := ifp.coe, dio := a.dio, buf := a.buf,
               lowCalls := a.lowCalls + 1 } := by
  have hlow := sg_read_low_of_cat_ua a.st ifp (blocks - a.xferred)
    (fb + a.xferred) a.dio 0 u.first hB hE hF hC
  simp only [sg_step, hlow]

/-- With every scripted response a unit attention, the loop makes exactly
`M = max_uas` further attempts (no `num_retries` bookkeeping) and then
returns `UNIT_ATTENTION` with the ceiling at exactly 0. -/
theorem sg_read_loop_all_ua (blocks : Nat) (fb : Int) (bs : Nat)
    (ifp : Flags) (u : StepResp)
    (hE : u.first.ioctlEnomem = false) (hF : u.first.ioctlFail = false)
    (hC : u.first.cat = .unitAttention) :
    ∀ (M n : Nat) (a : LoopSt), 1 ≤ M → M ≤ n →
      a.st.max_uas = (M : Int) →
      blocks - a.xferred ≠ 0 →
      (sg_build_scsi_cdb ifp.cdbsz (blocks - a.xferred)
        (fb + a.xferred) false ifp.fua ifp.dpo).isSome →
      sg_read_loop blocks fb bs ifp (List.replicate n u) a =
        { code := .unitAttention, blksRead := none,
          st := { a.st with max_uas := 0 }, coe := ifp.coe, dio := a.dio,
          buf := a.buf, lowCalls := a.lowCalls + M } := by
  intro M
  induction M with
  | zero => intro n a h1; omega
  | succ M ih =>
      intro n a _ hn hM hne hB
      rcases n with _ | n
      · omega
      rw [List.replicate_succ]
      simp only [sg_read_loop]
      rw [if_neg hne, sg_step_ua blocks fb bs ifp u a hB hE hF hC]
      rcases Nat.eq_zero_or_pos M with hM0 | hMpos
      · subst hM0
        rw [if_neg (by rw [hM]; simp)]
        simp [hM]
      · rw [if_pos (by rw [hM]; push_cast; omega)]
        dsimp only
        rw [ih n _ hMpos (by omega) (by simp [hM]) (by simpa using hne)
          (by simpa using hB)]
        dsimp only
        congr 1
        omega

/-- C4 (amended): if the device reports unit attention on every attempt
and the process-wide ceiling `max_uas` holds `M ≥ 1`, then `sg_read`
returns the `UNIT_ATTENTION` outcome after exactly `M` transfer attempts —
that is, `M - 1` retries, the `M`-th decrement driving the ceiling to
exactly 0 (never negative within the call) — and the retries-attempted
counter `num_retries` is NOT incremented (the unit-attention branch does
no retry bookkeeping). -/
theorem sg_read_ua_exhaustion (st : GState) (ifp : Flags) (dio : Bool)
    (blocks : Nat) (fb : Int) (bs : Nat) (u : StepResp) (M n : Nat)
    (hE : u.first.ioctlEnomem = false) (hF : u.first.ioctlFail = false)
    (hC : u.first.cat = .unitAttention)
    (h1 : 1 ≤ M) (hn : M ≤ n) (hM : st.max_uas = (M : Int))
    (hblocks : blocks ≠ 0)
    (hB : (sg_build_scsi_cdb ifp.cdbsz blocks fb false ifp.fua ifp.dpo).isSome) :
    sg_read (List.replicate n u) st ifp dio blocks fb bs =
      { code := .unitAttention, blksRead := none,
        st := { st with max_uas := 0 }, coe := ifp.coe, dio := dio,
        buf := List.replicate blocks .untouched, lowCalls := M } := by
  have h := sg_read_loop_all_ua blocks fb bs ifp u hE hF hC M n
    ⟨st, dio, List.replicate blocks .untouched, 0, ifp.retries, 0⟩
    h1 hn (by simpa using hM) (by simpa using hblocks) (by simpa using hB)
  simpa [sg_read] using h

/-- Witness for `sg_read_ua_exhaustion`: the default ceiling 10 with 11
scripted unit attentions gives up after 10 attempts with the ceiling at 0. -/
theorem sg_read_ua_exhaustion_witness :
    sg_read (List.replicate 11 (stepOf uaResp)) st0
        ⟨10, 0, 0, 0, false, false⟩ false 1 0 512 =
      { code := .unitAttention, blksRead := none,
        st := { st0 with max_uas := 0 }, coe := 0, dio := false,
        buf := List.replicate 1 .untouched, lowCalls := 10 } :=
  sg_read_ua_exhaustion st0 ⟨10, 0, 0, 0, false, false⟩ false 1 0 512
    (stepOf uaResp) 10 11 (by decide) (by decide) (by decide) (by decide)
    (by decide) (by decide) (by decide) (by decide)

/-! ## C5: ENOMEM propagates untouched -/

/-- Helper: an `ENOMEM` result of the first transfer is propagated as is. -/
theorem sg_read_enomem_eq (st : GState) (ifp : Flags) (dio : Bool)
    (blocks : Nat) (fb : Int) (bs : Nat) (r : StepResp) (rest : List StepResp)
    (hblocks : blocks ≠ 0)
    (hB : (sg_build_scsi_cdb ifp.cdbsz blocks fb false ifp.fua ifp.dpo).isSome)
    (hE : r.first.ioctlEnomem = true) :
    sg_read (r :: rest) st ifp dio blocks fb bs =
      { code := .enomem, blksRead := none, st := st, coe := ifp.coe,
        dio := dio, buf := List.replicate blocks .untouched, lowCalls := 1 } := by
  apply sg_read_cons_inl st ifp dio blocks fb bs r rest _ hblocks
  have hlow := sg_read_low_enomem st ifp (blocks - 0) (fb + ((0 : Nat) : Int))
    dio 0 r.first (by simpa using hB) hE
  simp only [sg_step, hlow]

/-- C5: whenever the device-control call signals `ENOMEM` (the -2 return of
`sg_read_low`), `sg_read` returns it at once: exactly one transfer attempt
is made regardless of the remaining script and the retry budget, nothing
is written through `blks_readp`, and the global counters — in particular
`unrecovered_errs` — are completely unchanged. -/
theorem sg_read_enomem_propagates (st : GState) (ifp : Flags) (dio : Bool)
    (blocks : Nat) (fb : Int) (bs : Nat) (r : StepResp) (rest : List StepResp)
    (hblocks : blocks ≠ 0)
    (hB : (sg_build_scsi_cdb ifp.cdbsz blocks fb false ifp.fua ifp.dpo).isSome)
    (hE : r.first.ioctlEnomem = true) :
    sg_read (r :: rest) st ifp dio blocks fb bs =
      { code := .enomem, blksRead := none, st := st, coe := ifp.coe,
        dio := dio, buf := List.replicate blocks .untouched, lowCalls := 1 } :=
  sg_read_enomem_eq st ifp dio blocks fb bs r rest hblocks hB hE

/-- Witness for `sg_read_enomem_propagates` at a concrete scenario. -/
theorem sg_read_enomem_propagates_witness :
    sg_read [stepOf enomemResp] st0 ⟨10, 0, 0, 2, false, false⟩ false
        4 100 512 =
      { code := .enomem, blksRead := none, st := st0, coe := 0,
        dio := false, buf := List.replicate 4 .untouched, lowCalls := 1 } :=
  sg_read_enomem_propagates st0 ⟨10, 0, 0, 2, false, false⟩ false 4 100 512
    (stepOf enomemResp) [] (by decide) (by decide) (by decide)

/-! ## More single-transfer characterizations -/

theorem sg_read_low_clean (st : GState) (ifp : Flags) (blocks : Nat)
    (fb : Int) (dio : Bool) (io : Nat) (r : LowResp)
    (hB : (sg_build_scsi_cdb ifp.cdbsz blocks fb false ifp.fua ifp.dpo).isSome)
    (hE : r.ioctlEnomem = false) (hF : r.ioctlFail = false)
    (hC : r.cat = .clean) :
    sg_read_low st ifp blocks fb dio io r = ⟨.clean, st, dio && r.dioOk, io⟩ := by
  rcases Option.isSome_iff_exists.mp hB with ⟨c, hc⟩
  simp [sg_read_low, hc, hE, hF, hC]

theorem sg_read_low_medium_withinfo (st : GState) (ifp : Flags) (blocks : Nat)
    (fb : Int) (dio : Bool) (io : Nat) (r : LowResp)
    (hB : (sg_build_scsi_cdb ifp.cdbsz blocks fb false ifp.fua ifp.dpo).isSome)
    (hE : r.ioctlEnomem = false) (hF : r.ioctlFail = false)
    (hC : r.cat = .mediumHard) (hIV : r.infoValid = true) :
    sg_read_low st ifp blocks fb dio io r =
      ⟨.mediumHardWithInfo,
       { st with unrecovered_errs := st.unrecovered_errs + 1 }, dio,
       r.infoFld⟩ := by
  rcases Option.isSome_iff_exists.mp hB with ⟨c, hc⟩
  simp [sg_read_low, hc, hE, hF, hC, hIV]

theorem sg_read_low_ioctlFail_eq (st : GState) (ifp : Flags) (blocks : Nat)
    (fb : Int) (dio : Bool) (io : Nat) (r : LowResp)
    (hB : (sg_build_scsi_cdb ifp.cdbsz blocks fb false ifp.fua ifp.dpo).isSome)
    (hE : r.ioctlEnomem = false) (hF : r.ioctlFail = true) :
    sg_read_low st ifp blocks fb dio io r = ⟨.ioerr, st, dio, io⟩ :=
  sg_read_low_ioctlFail st ifp blocks fb dio io r hB hE hF

/-- A `.inr` step result continues the loop on the rest of the script. -/
theorem sg_read_loop_cons_inr (blocks : Nat) (fb : Int) (bs : Nat)
    (ifp : Flags) (r : StepResp) (rest : List StepResp) (a a' : LoopSt)
    (hne : blocks - a.xferred ≠ 0)
    (h : sg_step blocks fb bs ifp r a = .inr a') :
    sg_read_loop blocks fb bs ifp (r :: rest) a =
      sg_read_loop blocks fb bs ifp rest a' := by
  conv_lhs => rw [sg_read_loop]
  rw [if_neg hne, h]

/-- A clean completion of the first remaining iteration finishes the loop. -/
theorem sg_read_loop_clean_finish (blocks : Nat) (fb : Int) (bs : Nat)
    (ifp : Flags) (r : StepResp) (rest : List StepResp) (a : LoopSt)
    (hne : blocks - a.xferred ≠ 0)
    (hB : (sg_build_scsi_cdb ifp.cdbsz (blocks - a.xferred)
      (fb + a.xferred) false ifp.fua ifp.dpo).isSome)
    (hE : r.first.ioctlEnomem = false) (hF : r.first.ioctlFail = false)
    (hC : r.first.cat = .clean) :
    sg_read_loop blocks fb bs ifp (r :: rest) a =
      { code := .clean, blksRead := some (a.xferred + (blocks - a.xferred)),
        st := a.st, coe := ifp.coe, dio := a.dio && r.first.dioOk,
        buf := writeRange a.buf a.xferred (blocks - a.xferred) .data,
        lowCalls := a.lowCalls + 1 } := by
  have hlow := sg_read_low_clean a.st ifp (blocks - a.xferred)
    (fb + a.xferred) a.dio 0 r.first hB hE hF hC
  simp only [sg_read_loop]
  rw [if_neg hne]
  simp only [sg_step, hlow]

/-! ## C2 (amended): the terminal-failure paths, case by case -/

/-- Helper: medium error without usable LBA info, retries exhausted,
`coe` enabled: the fudge path — zero-fill, full `blks_readp`, success. -/
theorem sg_read_medium_noinfo_fudge (st : GState) (ifp : Flags) (dio : Bool)
    (blocks : Nat) (fb : Int) (bs : Nat) (r : StepResp) (rest : List StepResp)
    (hblocks : blocks ≠ 0)
    (hB : (sg_build_scsi_cdb ifp.cdbsz blocks fb false ifp.fua ifp.dpo).isSome)
    (hcoe : ifp.coe ≠ 0) (hrt : ifp.retries ≤ 0)
    (hE : r.first.ioctlEnomem = false) (hF : r.first.ioctlFail = false)
    (hC : r.first.cat = .mediumHard) (hIV : r.first.infoValid = false)
    (hI0 : r.first.infoFld = 0) :
    sg_read (r :: rest) st ifp dio blocks fb bs =
      { code := .clean, blksRead := some blocks,
        st := { st with unrecovered_errs := st.unrecovered_errs + 1 },
        coe := ifp.coe, dio := dio,
        buf := List.replicate blocks .zero, lowCalls := 1 } := by
  apply sg_read_cons_inl st ifp dio blocks fb bs r rest _ hblocks
  have hlow := sg_read_low_medium_noinfo st ifp (blocks - 0)
    (fb + ((0 : Nat) : Int)) dio 0 r.first (by simpa using hB) hE hF hC hIV hI0
  simp only [sg_step, hlow]
  rw [if_neg (by simp; omega)]
  simp only [err_out]
  rw [if_pos (by simpa using hcoe)]
  simp [writeRange_replicate]

/-- Helper: an unclassified `-1` ioctl failure with `coe` enabled:
zero-fill and full `blks_readp` are fudged, but the true `-1` status is
returned (not success). -/
theorem sg_read_ioerr_fudge (st : GState) (ifp : Flags) (dio : Bool)
    (blocks : Nat) (fb : Int) (bs : Nat) (r : StepResp) (rest : List StepResp)
    (hblocks : blocks ≠ 0)
    (hB : (sg_build_scsi_cdb ifp.cdbsz blocks fb false ifp.fua ifp.dpo).isSome)
    (hcoe : ifp.coe ≠ 0)
    (hE : r.first.ioctlEnomem = false) (hF : r.first.ioctlFail = true) :
    sg_read (r :: rest) st ifp dio blocks fb bs =
      { code := .ioerr, blksRead := some blocks, st := st,
        coe := ifp.coe, dio := dio,
        buf := List.replicate blocks .zero, lowCalls := 1 } := by
  apply sg_read_cons_inl st ifp dio blocks fb bs r rest _ hblocks
  have hlow := sg_read_low_ioctlFail_eq st ifp (blocks - 0)
    (fb + ((0 : Nat) : Int)) dio 0 r.first (by simpa using hB) hE hF
  simp only [sg_step, hlow]
  simp only [err_out]
  rw [if_pos (by simpa using hcoe)]
  simp [writeRange_replicate]

/-- Helper: a NOT READY failure returns directly, bypassing `err_out`
entirely, even with `coe` enabled: no zero-fill, no `blks_readp`. -/
theorem sg_read_notReady_eq (st : GState) (ifp : Flags) (dio : Bool)
    (blocks : Nat) (fb : Int) (bs : Nat) (r : StepResp) (rest : List StepResp)
    (hblocks : blocks ≠ 0)
    (hB : (sg_build_scsi_cdb ifp.cdbsz blocks fb false ifp.fua ifp.dpo).isSome)
    (hE : r.first.ioctlEnomem = false) (hF : r.first.ioctlFail = false)
    (hC : r.first.cat = .notReady) :
    sg_read (r :: rest) st ifp dio blocks fb bs =
      { code := .notReady, blksRead := none,
        st := { st with unrecovered_errs := st.unrecovered_errs + 1 },
        coe := ifp.coe, dio := dio,
        buf := List.replicate blocks .untouched, lowCalls := 1 } := by
  apply sg_read_cons_inl st ifp dio blocks fb bs r rest _ hblocks
  have hlow := sg_read_low_of_cat_notReady st ifp (blocks - 0)
    (fb + ((0 : Nat) : Int)) dio 0 r.first (by simpa using hB) hE hF hC
  simp only [sg_step, hlow]

/-- Helper: a cdb build failure (`SG_LIB_SYNTAX_ERROR`) clears the
caller's `coe` field and then propagates through `err_out`'s disabled-coe
branch: no zero-fill, no `blks_readp`, returned `coe` is 0. -/
theorem sg_read_syntax_eq (st : GState) (ifp : Flags) (dio : Bool)
    (blocks : Nat) (fb : Int) (bs : Nat) (r : StepResp) (rest : List StepResp)
    (hblocks : blocks ≠ 0)
    (hB : sg_build_scsi_cdb ifp.cdbsz blocks fb false ifp.fua ifp.dpo = none) :
    sg_read (r :: rest) st ifp dio blocks fb bs =
      { code := .syntaxError, blksRead := none, st := st, coe := 0,
        dio := dio, buf := List.replicate blocks .untouched, lowCalls := 1 } := by
  apply sg_read_cons_inl st ifp dio blocks fb bs r rest _ hblocks
  have hlow := sg_read_low_syntax st ifp (blocks - 0) (fb + ((0 : Nat) : Int))
    dio 0 r.first (by simpa using hB)
  simp only [sg_step, hlow]
  simp [err_out]

/-- C2 (amended): under continue-on-error, only the `err_out` failures
with `may_coe` set (medium error without usable LBA info — and the
out-of-range-LBA case it shares a path with) are fudged into success with
a zero-filled remainder and a full `blks_readp`; an unclassified `-1`
failure zero-fills and fudges `blks_readp` but returns its true status;
NOT READY failures return directly with no fudge at all; and
`ResourceExhausted` (-2) and `SyntaxError` always propagate their true
status regardless of the policy, `SyntaxError` doing so by clearing the
caller's `coe` field. -/
theorem sg_read_terminal_failure_cases :
    (∀ (st : GState) (ifp : Flags) (dio : Bool) (blocks : Nat) (fb : Int)
       (bs : Nat) (r : StepResp) (rest : List StepResp), blocks ≠ 0 →
       (sg_build_scsi_cdb ifp.cdbsz blocks fb false ifp.fua ifp.dpo).isSome →
       ifp.coe ≠ 0 → ifp.retries ≤ 0 →
       r.first.ioctlEnomem = false → r.first.ioctlFail = false →
       r.first.cat = .mediumHard → r.first.infoValid = false →
       r.first.infoFld = 0 →
       sg_read (r :: rest) st ifp dio blocks fb bs =
         { code := .clean, blksRead := some blocks,
           st := { st with unrecovered_errs := st.unrecovered_errs + 1 },
           coe := ifp.coe, dio := dio,
           buf := List.replicate blocks .zero, lowCalls := 1 }) ∧
    (∀ (st : GState) (ifp : Flags) (dio : Bool) (blocks : Nat) (fb : Int)
       (bs : Nat) (r : StepResp) (rest : List StepResp), blocks ≠ 0 →
       (sg_build_scsi_cdb ifp.cdbsz blocks fb false ifp.fua ifp.dpo).isSome →
       ifp.coe ≠ 0 →
       r.first.ioctlEnomem = false → r.first.ioctlFail = true →
       sg_read (r :: rest) st ifp dio blocks fb bs =
         { code := .ioerr, blksRead := some blocks, st := st,
           coe := ifp.coe, dio := dio,
           buf := List.replicate blocks .zero, lowCalls := 1 }) ∧
    (∀ (st : GState) (ifp : Flags) (dio : Bool) (blocks : Nat) (fb : Int)
       (bs : Nat) (r : StepResp) (rest : List StepResp), blocks ≠ 0 →
       (sg_build_scsi_cdb ifp.cdbsz blocks fb false ifp.fua ifp.dpo).isSome →
       r.first.ioctlEnomem = false → r.first.ioctlFail = false →
       r.first.cat = .notReady →
       sg_read (r :: rest) st ifp dio blocks fb bs =
         { code := .notReady, blksRead := none,
           st := { st with unrecovered_errs := st.unrecovered_errs + 1 },
           coe := ifp.coe, dio := dio,
           buf := List.replicate blocks .untouched, lowCalls := 1 }) ∧
    (∀ (st : GState) (ifp : Flags) (dio : Bool) (blocks : Nat) (fb : Int)
       (bs : Nat) (r : StepResp) (rest : List StepResp), blocks ≠ 0 →
       (sg_build_scsi_cdb ifp.cdbsz blocks fb false ifp.fua ifp.dpo).isSome →
       r.first.ioctlEnomem = true →
       sg_read (r :: rest) st ifp dio blocks fb bs =
         { code := .enomem, blksRead := none, st := st, coe := ifp.coe,
           dio := dio, buf := List.replicate blocks .untouched,
           lowCalls := 1 }) ∧
    (∀ (st : GState) (ifp : Flags) (dio : Bool) (blocks : Nat) (fb : Int)
       (bs : Nat) (r : StepResp) (rest : List StepResp), blocks ≠ 0 →
       sg_build_scsi_cdb ifp.cdbsz blocks fb false ifp.fua ifp.dpo = none →
       sg_read (r :: rest) st ifp dio blocks fb bs =
         { code := .syntaxError, blksRead := none, st := st, coe := 0,
           dio := dio, buf := List.replicate blocks .untouched,
           lowCalls := 1 }) :=
  ⟨fun st ifp dio blocks fb bs r rest h1 h2 h3 h4 h5 h6 h7 h8 h9 =>
     sg_read_medium_noinfo_fudge st ifp dio blocks fb bs r rest h1 h2 h3 h4 h5 h6 h7 h8 h9,
   fun st ifp dio blocks fb bs r rest h1 h2 h3 h4 h5 =>
     sg_read_ioerr_fudge st ifp dio blocks fb bs r rest h1 h2 h3 h4 h5,
   fun st ifp dio blocks fb bs r rest h1 h2 h3 h4 h5 =>
     sg_read_notReady_eq st ifp dio blocks fb bs r rest h1 h2 h3 h4 h5,
   fun st ifp dio blocks fb bs r rest h1 h2 h3 =>
     sg_read_enomem_eq st ifp dio blocks fb bs r rest h1 h2 h3,
   fun st ifp dio blocks fb bs r rest h1 h2 =>
     sg_read_syntax_eq st ifp dio blocks fb bs r rest h1 h2⟩

/-- Witness for `sg_read_terminal_failure_cases`, instantiating each case
at a concrete scenario (`coe = 1`, `cdbsz = 10` — except the syntax case,
driven by an unsupported `cdbsz = 7`). -/
theorem sg_read_terminal_failure_cases_witness :
    sg_read [stepOf ⟨false, false, .mediumHard, false, 0, false, false, true⟩]
        st0 ⟨10, 1, 0, 0, false, false⟩ false 4 100 512 =
      { code := .clean, blksRead := some 4,
        st := { st0 with unrecovered_errs := 1 },
        coe := 1, dio := false, buf := List.replicate 4 .zero,
        lowCalls := 1 } ∧
    sg_read [stepOf ⟨false, true, .clean, false, 0, false, false, true⟩]
        st0 ⟨10, 1, 0, 0, false, false⟩ false 4 100 512 =
      { code := .ioerr, blksRead := some 4, st := st0,
        coe := 1, dio := false, buf := List.replicate 4 .zero,
        lowCalls := 1 } ∧
    sg_read [stepOf notReadyResp] st0 ⟨10, 1, 0, 0, false, false⟩ false
        4 100 512 =
      { code := .notReady, blksRead := none,
        st := { st0 with unrecovered_errs := 1 },
        coe := 1, dio := false, buf := List.replicate 4 .untouched,
        lowCalls := 1 } ∧
    sg_read [stepOf enomemResp] st0 ⟨10, 1, 0, 0, false, false⟩ false
        4 100 512 =
      { code := .enomem, blksRead := none, st := st0, coe := 1,
        dio := false, buf := List.replicate 4 .untouched, lowCalls := 1 } ∧
    sg_read [stepOf cleanResp] st0 ⟨7, 1, 0, 0, false, false⟩ false
        4 100 512 =
      { code := .syntaxError, blksRead := none, st := st0, coe := 0,
        dio := false, buf := List.replicate 4 .untouched, lowCalls := 1 } :=
  ⟨sg_read_terminal_failure_cases.1 st0 ⟨10, 1, 0, 0, false, false⟩ false
     4 100 512 _ [] (by decide) (by decide) (by decide) (by decide)
     (by decide) (by decide) (by decide) (by decide) (by decide),
   sg_read_terminal_failure_cases.2.1 st0 ⟨10, 1, 0, 0, false, false⟩ false
     4 100 512 _ [] (by decide) (by decide) (by decide) (by decide) (by decide),
   sg_read_terminal_failure_cases.2.2.1 st0 ⟨10, 1, 0, 0, false, false⟩ false
     4 100 512 _ [] (by decide) (by decide) (by decide) (by decide) (by decide),
   sg_read_terminal_failure_cases.2.2.2.1 st0 ⟨10, 1, 0, 0, false, false⟩ false
     4 100 512 _ [] (by decide) (by decide) (by decide),
   sg_read_terminal_failure_cases.2.2.2.2 st0 ⟨7, 1, 0, 0, false, false⟩ false
     4 100 512 _ [] (by decide) (by decide)⟩

/-! ## C9: the `coe` policy field is cleared on some error paths -/

/-- C9: `sg_read` writes 0 into the `coe` field of the caller-supplied
flags struct before returning, both (a) on a `SyntaxError` outcome (cdb
build failure), for any state, geometry and script, and (b) on an
unclassified `-1` ioctl failure of the partial re-read issued after a
medium error (shown on the 4-block read at LBA 100 with error LBA 102).
In both cases the returned flags carry `coe = 0`, so continue-on-error is
disabled for subsequent calls that reuse the struct. -/
theorem sg_read_clears_coe :
    (∀ (st : GState) (ifp : Flags) (dio : Bool) (blocks : Nat) (fb : Int)
       (bs : Nat) (r : StepResp) (rest : List StepResp), blocks ≠ 0 →
       sg_build_scsi_cdb ifp.cdbsz blocks fb false ifp.fua ifp.dpo = none →
       (sg_read (r :: rest) st ifp dio blocks fb bs).code = .syntaxError ∧
       (sg_read (r :: rest) st ifp dio blocks fb bs).coe = 0 ∧
       (sg_read (r :: rest) st ifp dio blocks fb bs).blksRead = none) ∧
    (∀ (st : GState) (c : Int),
       (sg_read [⟨mediumInfoResp 102,
           ⟨false, true, .clean, false, 0, false, false, true⟩,
           true, .ok, 0, true⟩] st ⟨10, c, 0, 0, false, false⟩ false
           4 100 512).code = .ioerr ∧
       (sg_read [⟨mediumInfoResp 102,
           ⟨false, true, .clean, false, 0, false, false, true⟩,
           true, .ok, 0, true⟩] st ⟨10, c, 0, 0, false, false⟩ false
           4 100 512).coe = 0 ∧
       (sg_read [⟨mediumInfoResp 102,
           ⟨false, true, .clean, false, 0, false, false, true⟩,
           true, .ok, 0, true⟩] st ⟨10, c, 0, 0, false, false⟩ false
           4 100 512).blksRead = none) := by
  constructor
  · intro st ifp dio blocks fb bs r rest hblocks hB
    rw [sg_read_syntax_eq st ifp dio blocks fb bs r rest hblocks hB]
    exact ⟨rfl, rfl, rfl⟩
  · intro st c
    exact ⟨rfl, rfl, rfl⟩

/-- Witness for `sg_read_clears_coe`: an unsupported descriptor size
(`cdbsz = 7`) under `coe = 1`, and the prefix re-read `-1` failure under
`coe = 1`. -/
theorem sg_read_clears_coe_witness :
    ((sg_read [stepOf cleanResp] st0 ⟨7, 1, 0, 0, false, false⟩ false
        4 100 512).code = .syntaxError ∧
     (sg_read [stepOf cleanResp] st0 ⟨7, 1, 0, 0, false, false⟩ false
        4 100 512).coe = 0 ∧
     (sg_read [stepOf cleanResp] st0 ⟨7, 1, 0, 0, false, false⟩ false
        4 100 512).blksRead = none) ∧
    ((sg_read [⟨mediumInfoResp 102,
        ⟨false, true, .clean, false, 0, false, false, true⟩,
        true, .ok, 0, true⟩] st0 ⟨10, 1, 0, 0, false, false⟩ false
        4 100 512).code = .ioerr ∧
     (sg_read [⟨mediumInfoResp 102,
        ⟨false, true, .clean, false, 0, false, false, true⟩,
        true, .ok, 0, true⟩] st0 ⟨10, 1, 0, 0, false, false⟩ false
        4 100 512).coe = 0 ∧
     (sg_read [⟨mediumInfoResp 102,
        ⟨false, true, .clean, false, 0, false, false, true⟩,
        true, .ok, 0, true⟩] st0 ⟨10, 1, 0, 0, false, false⟩ false
        4 100 512).blksRead = none) :=
  ⟨sg_read_clears_coe.1 st0 ⟨7, 1, 0, 0, false, false⟩ false 4 100 512
     (stepOf cleanResp) [] (by decide) (by decide),
   sg_read_clears_coe.2 st0 1⟩

/-! ## C10: a consumed retry decrements the unrecovered-error counter -/

/-- The retry bookkeeping undoes the increment the failed transfer just
made. -/
theorem retry_bookkeeping_after_increment (st : GState)
    (h : 0 ≤ st.unrecovered_errs) :
    retry_bookkeeping { st with unrecovered_errs := st.unrecovered_errs + 1 } =
      { st with num_retries := st.num_retries + 1 } := by
  simp only [retry_bookkeeping]
  rw [if_pos (show (0 : Int) < st.unrecovered_errs + 1 by omega)]
  simp

/-- C10: when `sg_read` spends one unit of the per-call retry budget after
a medium error (`MEDIUM_HARD_WITH_INFO` here), it increments `num_retries`
and decrements `unrecovered_errs` (which the failed transfer had just
incremented); consequently a 4-block transfer that fails once with a
medium error and succeeds on retry returns success with the
unrecovered-error counter net unchanged and `num_retries` up by one. -/
theorem sg_read_retry_undoes_unrecovered (st : GState) (ifp : Flags)
    (dio : Bool) (r1 r2 : StepResp) (rest : List StepResp)
    (hcdb : ifp.cdbsz = 10) (hrt : 0 < ifp.retries)
    (hu : 0 ≤ st.unrecovered_errs)
    (hE1 : r1.first.ioctlEnomem = false) (hF1 : r1.first.ioctlFail = false)
    (hC1 : r1.first.cat = .mediumHard) (hIV1 : r1.first.infoValid = true)
    (hE2 : r2.first.ioctlEnomem = false) (hF2 : r2.first.ioctlFail = false)
    (hC2 : r2.first.cat = .clean) :
    sg_read (r1 :: r2 :: rest) st ifp dio 4 100 512 =
      { code := .clean, blksRead := some 4,
        st := { st with num_retries := st.num_retries + 1 },
        coe := ifp.coe, dio := dio && r2.first.dioOk,
        buf := List.replicate 4 .data, lowCalls := 2 } := by
  have hB : (sg_build_scsi_cdb ifp.cdbsz (4 - 0) ((100 : Int) + ((0 : Nat) : Int))
      false ifp.fua ifp.dpo).isSome := by
    rw [hcdb]; rfl
  have hlow1 := sg_read_low_medium_withinfo st ifp (4 - 0)
    ((100 : Int) + ((0 : Nat) : Int)) dio 0 r1.first hB hE1 hF1 hC1 hIV1
  have hstep1 : sg_step 4 100 512 ifp r1
      ⟨st, dio, List.replicate 4 .untouched, 0, ifp.retries, 0⟩ =
      .inr ⟨retry_bookkeeping
              { st with unrecovered_errs := st.unrecovered_errs + 1 },
            dio, List.replicate 4 .untouched, 0, ifp.retries - 1, 1⟩ := by
    simp only [sg_step, hlow1]
    rw [if_pos (by simpa using hrt)]
  simp only [sg_read]
  rw [sg_read_loop_cons_inr 4 100 512 ifp r1 (r2 :: rest) _ _ (by simp) hstep1]
  rw [sg_read_loop_clean_finish 4 100 512 ifp r2 rest _ (by simp)
    (by rw [hcdb]; rfl) hE2 hF2 hC2]
  dsimp only
  rw [retry_bookkeeping_after_increment st hu]
  simp [writeRange_replicate]
  decide

/-- Witness for `sg_read_retry_undoes_unrecovered` at the concrete
fail-once-then-succeed scenario. -/
theorem sg_read_retry_undoes_unrecovered_witness :
    sg_read [⟨mediumInfoResp 102, cleanResp, true, .ok, 0, true⟩,
        stepOf cleanResp] st0 ⟨10, 0, 0, 2, false, false⟩ false 4 100 512 =
      { code := .clean, blksRead := some 4,
        st := { st0 with num_retries := 1 },
        coe := 0, dio := false, buf := List.replicate 4 .data,
        lowCalls := 2 } :=
  sg_read_retry_undoes_unrecovered st0 ⟨10, 0, 0, 2, false, false⟩ false
    ⟨mediumInfoResp 102, cleanResp, true, .ok, 0, true⟩ (stepOf cleanResp) []
    (by decide) (by decide) (by decide) (by decide) (by decide) (by decide)
    (by decide) (by decide) (by decide) (by decide)

end Dskread
